import Mathlib

/-!
Shallow embedding of the `creative-title-maker` action layer
(`src/actions/index.ts`) and its data model (`db/config.ts` tables
`TitleSessions` / `TitleIdeas`).

Modelling conventions:
* Dates are `Nat` timestamps; `new Date()` / `crypto.randomUUID()` are
  threaded in as explicit `now` / `freshId` parameters.
* The store is a pair of row lists; drizzle `select/insert/update/delete`
  become list operations (`filter`, `++`, `map`).
* Each Astro action is a function `raw input → context → store →
  Except ActionError output × store`; the zod `input` schema (including
  `.min(1)` and `.refine`) is a `parse…` function that runs before the
  handler, exactly as `defineAction` validates the payload before the
  handler is invoked.  A thrown `ActionError` aborts with the store as it
  was at the throw point.
-/

namespace CreativeTitleMaker

/-- A signed-in user as found in `context.locals.user`. -/
structure User where
  id : String
  deriving Repr, DecidableEq

/-- Request-scoped context: `context.locals.user` may be absent. -/
structure RequestContext where
  user : Option User
  deriving Repr, DecidableEq

/-- Row of the `TitleSessions` table. -/
structure TitleSession where
  id : String
  userId : String
  contentType : Option String
  workingTitle : Option String
  topic : Option String
  targetAudience : Option String
  language : Option String
  notes : Option String
  createdAt : Nat
  updatedAt : Nat
  deriving Repr, DecidableEq

/-- Row of the `TitleIdeas` table. -/
structure TitleIdea where
  id : String
  sessionId : String
  titleText : String
  tone : Option String
  style : Option String
  isFavorite : Bool
  isSelected : Bool
  createdAt : Nat
  deriving Repr, DecidableEq

/-- The database: both tables, rows in insertion order. -/
structure Store where
  sessions : List TitleSession
  ideas : List TitleIdea
  deriving Repr, DecidableEq

/-- `ActionError` codes used by the action layer; `BAD_REQUEST` is the
code Astro attaches to a zod input-validation failure. -/
inductive ErrCode where
  | UNAUTHORIZED
  | NOT_FOUND
  | BAD_REQUEST
  deriving Repr, DecidableEq

/-- A structured error thrown by an action. -/
structure ActionError where
  code : ErrCode
  message : String
  deriving Repr, DecidableEq

def unauthorizedError : ActionError :=
  ⟨.UNAUTHORIZED, "You must be signed in to perform this action."⟩

def sessionNotFoundError : ActionError :=
  ⟨.NOT_FOUND, "Title session not found."⟩

def ideaNotFoundError : ActionError :=
  ⟨.NOT_FOUND, "Title idea not found."⟩

/-- zod message for a failed `z.string().min(1)`. -/
def minLengthMessage : String := "String must contain at least 1 character(s)"

/-- Message of the `.refine` on both update schemas. -/
def atLeastOneFieldMessage : String := "At least one field must be provided to update."

def validationError (m : String) : ActionError := ⟨.BAD_REQUEST, m⟩

/-- `requireUser`: resolves `context.locals.user`, throwing `UNAUTHORIZED`
when absent. -/
def requireUser (context : RequestContext) : Except ActionError User :=
  match context.user with
  | none => .error unauthorizedError
  | some user => .ok user

/-- `getOwnedSession`: one `select … where id = sessionId and userId = userId`,
throwing `NOT_FOUND` when no row matches. -/
def getOwnedSession (st : Store) (sessionId userId : String) :
    Except ActionError TitleSession :=
  match (st.sessions.filter fun s => s.id == sessionId && s.userId == userId).head? with
  | none => .error sessionNotFoundError
  | some session => .ok session

/-! ### Inputs (raw payloads, before zod validation) -/

/-- Payload of `createTitleSession`: six optional strings. -/
structure CreateSessionInput where
  contentType : Option String := none
  workingTitle : Option String := none
  topic : Option String := none
  targetAudience : Option String := none
  language : Option String := none
  notes : Option String := none
  deriving Repr, DecidableEq

/-- Payload of `updateTitleSession`. -/
structure UpdateSessionInput where
  id : String
  contentType : Option String := none
  workingTitle : Option String := none
  topic : Option String := none
  targetAudience : Option String := none
  language : Option String := none
  notes : Option String := none
  deriving Repr, DecidableEq

/-- Payload of `createTitleIdea`. -/
structure CreateIdeaInput where
  sessionId : String
  titleText : String
  tone : Option String := none
  style : Option String := none
  isFavorite : Option Bool := none
  isSelected : Option Bool := none
  deriving Repr, DecidableEq

/-- Payload of `updateTitleIdea`. -/
structure UpdateIdeaInput where
  id : String
  sessionId : String
  titleText : Option String := none
  tone : Option String := none
  style : Option String := none
  isFavorite : Option Bool := none
  isSelected : Option Bool := none
  deriving Repr, DecidableEq

/-- Payload of `deleteTitleIdea`. -/
structure DeleteIdeaInput where
  id : String
  sessionId : String
  deriving Repr, DecidableEq

/-- Payload of `listTitleIdeas`; the two flags carry zod defaults. -/
structure ListIdeasInput where
  sessionId : String
  favoritesOnly : Option Bool := none
  selectedOnly : Option Bool := none
  deriving Repr, DecidableEq

/-! ### zod schemas -/

/-- Schema of `updateTitleSession`: `id` must be non-empty, and the
`.refine` requires at least one optional field to be present. -/
def parseUpdateSession (input : UpdateSessionInput) :
    Except ActionError UpdateSessionInput :=
  if input.id.length < 1 then .error (validationError minLengthMessage)
  else if input.contentType.isSome || input.workingTitle.isSome ||
      input.topic.isSome || input.targetAudience.isSome ||
      input.language.isSome || input.notes.isSome then .ok input
  else .error (validationError atLeastOneFieldMessage)

/-- Schema of `createTitleIdea`: `sessionId` and `titleText` must be
non-empty. -/
def parseCreateIdea (input : CreateIdeaInput) :
    Except ActionError CreateIdeaInput :=
  if input.sessionId.length < 1 then .error (validationError minLengthMessage)
  else if input.titleText.length < 1 then .error (validationError minLengthMessage)
  else .ok input

/-- Schema of `updateTitleIdea`: non-empty `id` and `sessionId`, and the
`.refine` requires at least one of the five mutable fields. -/
def parseUpdateIdea (input : UpdateIdeaInput) :
    Except ActionError UpdateIdeaInput :=
  if input.id.length < 1 then .error (validationError minLengthMessage)
  else if input.sessionId.length < 1 then .error (validationError minLengthMessage)
  else if input.titleText.isSome || input.tone.isSome || input.style.isSome ||
      input.isFavorite.isSome || input.isSelected.isSome then .ok input
  else .error (validationError atLeastOneFieldMessage)

/-- Schema of `deleteTitleIdea`: non-empty `id` and `sessionId`. -/
def parseDeleteIdea (input : DeleteIdeaInput) :
    Except ActionError DeleteIdeaInput :=
  if input.id.length < 1 then .error (validationError minLengthMessage)
  else if input.sessionId.length < 1 then .error (validationError minLengthMessage)
  else .ok input

/-- Schema of `listTitleIdeas`: non-empty `sessionId`; `favoritesOnly` and
`selectedOnly` default to `false`. -/
def parseListIdeas (input : ListIdeasInput) :
    Except ActionError (String × Bool × Bool) :=
  if input.sessionId.length < 1 then .error (validationError minLengthMessage)
  else .ok (input.sessionId, input.favoritesOnly.getD false, input.selectedOnly.getD false)

/-! ### Actions -/

/-- Result shape of the list actions. -/
structure SessionListOutput where
  items : List TitleSession
  total : Nat
  deriving Repr, DecidableEq

/-- Result shape of `listTitleIdeas`. -/
structure IdeaListOutput where
  items : List TitleIdea
  total : Nat
  deriving Repr, DecidableEq

/-- `createTitleSession`: validate (trivially), authenticate, insert one
row with both timestamps set to `now`, return it. -/
def createTitleSession (input : CreateSessionInput) (context : RequestContext)
    (freshId : String) (now : Nat) (st : Store) :
    Except ActionError TitleSession × Store :=
  match requireUser context with
  | .error e => (.error e, st)
  | .ok user =>
    let session : TitleSession :=
      { id := freshId
        userId := user.id
        contentType := input.contentType
        workingTitle := input.workingTitle
        topic := input.topic
        targetAudience := input.targetAudience
        language := input.language
        notes := input.notes
        createdAt := now
        updatedAt := now }
    (.ok session, { st with sessions := st.sessions ++ [session] })

/-- The `set { … }` object of `updateTitleSession`: each field present in
the input overwrites the column, `updatedAt` is always set to `now`. -/
def applySessionSet (input : UpdateSessionInput) (now : Nat) (s : TitleSession) :
    TitleSession :=
  { s with
    contentType := match input.contentType with
      | some v => some v
      | none => s.contentType
    workingTitle := match input.workingTitle with
      | some v => some v
      | none => s.workingTitle
    topic := match input.topic with
      | some v => some v
      | none => s.topic
    targetAudience := match input.targetAudience with
      | some v => some v
      | none => s.targetAudience
    language := match input.language with
      | some v => some v
      | none => s.language
    notes := match input.notes with
      | some v => some v
      | none => s.notes
    updatedAt := now }

/-- `updateTitleSession`: validate, authenticate, check ownership, then
`update … where id = input.id` and return the first updated row. -/
def updateTitleSession (input : UpdateSessionInput) (context : RequestContext)
    (now : Nat) (st : Store) :
    Except ActionError (Option TitleSession) × Store :=
  match parseUpdateSession input with
  | .error e => (.error e, st)
  | .ok _ =>
    match requireUser context with
    | .error e => (.error e, st)
    | .ok user =>
      match getOwnedSession st input.id user.id with
      | .error e => (.error e, st)
      | .ok _ =>
        let newSessions := st.sessions.map fun s =>
          if s.id == input.id then applySessionSet input now s else s
        (.ok (newSessions.filter fun s => s.id == input.id).head?,
          { st with sessions := newSessions })

/-- `listTitleSessions`: authenticate, select the caller's sessions. -/
def listTitleSessions (context : RequestContext) (st : Store) :
    Except ActionError SessionListOutput × Store :=
  match requireUser context with
  | .error e => (.error e, st)
  | .ok user =>
    let sessions := st.sessions.filter fun s => s.userId == user.id
    (.ok ⟨sessions, sessions.length⟩, st)

/-- `createTitleIdea`: validate, authenticate, ownership-guard the session,
insert one row (`isFavorite`/`isSelected` default `false`), return it. -/
def createTitleIdea (input : CreateIdeaInput) (context : RequestContext)
    (freshId : String) (now : Nat) (st : Store) :
    Except ActionError TitleIdea × Store :=
  match parseCreateIdea input with
  | .error e => (.error e, st)
  | .ok _ =>
    match requireUser context with
    | .error e => (.error e, st)
    | .ok user =>
      match getOwnedSession st input.sessionId user.id with
      | .error e => (.error e, st)
      | .ok _ =>
        let idea : TitleIdea :=
          { id := freshId
            sessionId := input.sessionId
            titleText := input.titleText
            tone := input.tone
            style := input.style
            isFavorite := input.isFavorite.getD false
            isSelected := input.isSelected.getD false
            createdAt := now }
        (.ok idea, { st with ideas := st.ideas ++ [idea] })

/-- The `set { … }` object of `updateTitleIdea`: each field present in the
input overwrites the column; no timestamp is touched. -/
def applyIdeaSet (input : UpdateIdeaInput) (i : TitleIdea) : TitleIdea :=
  { i with
    titleText := input.titleText.getD i.titleText
    tone := match input.tone with
      | some v => some v
      | none => i.tone
    style := match input.style with
      | some v => some v
      | none => i.style
    isFavorite := input.isFavorite.getD i.isFavorite
    isSelected := input.isSelected.getD i.isSelected }

/-- `updateTitleIdea`: validate, authenticate, ownership-guard the session,
require the idea to exist under `(id, sessionId)`, then
`update … where id = input.id` and return the first updated row. -/
def updateTitleIdea (input : UpdateIdeaInput) (context : RequestContext)
    (st : Store) : Except ActionError (Option TitleIdea) × Store :=
  match parseUpdateIdea input with
  | .error e => (.error e, st)
  | .ok _ =>
    match requireUser context with
    | .error e => (.error e, st)
    | .ok user =>
      match getOwnedSession st input.sessionId user.id with
      | .error e => (.error e, st)
      | .ok _ =>
        match (st.ideas.filter fun i =>
            i.id == input.id && i.sessionId == input.sessionId).head? with
        | none => (.error ideaNotFoundError, st)
        | some _ =>
          let newIdeas := st.ideas.map fun i =>
            if i.id == input.id then applyIdeaSet input i else i
          (.ok (newIdeas.filter fun i => i.id == input.id).head?,
            { st with ideas := newIdeas })

/-- `deleteTitleIdea`: validate, authenticate, ownership-guard the session,
delete `where id = input.id and sessionId = input.sessionId`, then throw
`NOT_FOUND` when zero rows were affected. -/
def deleteTitleIdea (input : DeleteIdeaInput) (context : RequestContext)
    (st : Store) : Except ActionError Bool × Store :=
  match parseDeleteIdea input with
  | .error e => (.error e, st)
  | .ok _ =>
    match requireUser context with
    | .error e => (.error e, st)
    | .ok user =>
      match getOwnedSession st input.sessionId user.id with
      | .error e => (.error e, st)
      | .ok _ =>
        let rowsAffected := (st.ideas.filter fun i =>
          i.id == input.id && i.sessionId == input.sessionId).length
        let newIdeas := st.ideas.filter fun i =>
          !(i.id == input.id && i.sessionId == input.sessionId)
        let st' : Store := { st with ideas := newIdeas }
        if rowsAffected == 0 then (.error ideaNotFoundError, st')
        else (.ok true, st')

/-- `listTitleIdeas`: validate (defaults applied), authenticate,
ownership-guard the session, then select with the filter list: the
session predicate always, plus one predicate per true flag, combined
with `and(...)`. -/
def listTitleIdeas (input : ListIdeasInput) (context : RequestContext)
    (st : Store) : Except ActionError IdeaListOutput × Store :=
  match parseListIdeas input with
  | .error e => (.error e, st)
  | .ok (sessionId, favoritesOnly, selectedOnly) =>
    match requireUser context with
    | .error e => (.error e, st)
    | .ok user =>
      match getOwnedSession st sessionId user.id with
      | .error e => (.error e, st)
      | .ok _ =>
        let filters : List (TitleIdea → Bool) :=
          [fun i => i.sessionId == sessionId]
            ++ (if favoritesOnly then [fun i => i.isFavorite == true] else [])
            ++ (if selectedOnly then [fun i => i.isSelected == true] else [])
        let ideas := st.ideas.filter fun i => filters.all fun p => p i
        (.ok ⟨ideas, ideas.length⟩, st)

/-! ### Concrete fixtures (used by witnesses and counterexamples) -/

def sessionA : TitleSession :=
  { id := "s1", userId := "u1", contentType := none, workingTitle := none
    topic := none, targetAudience := none, language := none, notes := none
    createdAt := 10, updatedAt := 10 }

def ideaA : TitleIdea :=
  { id := "i1", sessionId := "s1", titleText := "Top 10 Tips"
    tone := none, style := none, isFavorite := false, isSelected := false
    createdAt := 11 }

def store1 : Store := ⟨[sessionA], [ideaA]⟩

def ideaFav : TitleIdea :=
  { id := "i2", sessionId := "s1", titleText := "Catchy One"
    tone := some "catchy", style := none, isFavorite := true, isSelected := false
    createdAt := 12 }

def ideaSel : TitleIdea :=
  { id := "i3", sessionId := "s1", titleText := "Chosen One"
    tone := none, style := some "how-to", isFavorite := false, isSelected := true
    createdAt := 13 }

def ideaBoth : TitleIdea :=
  { id := "i4", sessionId := "s1", titleText := "Best One"
    tone := none, style := none, isFavorite := true, isSelected := true
    createdAt := 14 }

def store2 : Store := ⟨[sessionA], [ideaA, ideaFav, ideaSel, ideaBoth]⟩

def ctxU1 : RequestContext := ⟨some ⟨"u1"⟩⟩
def ctxU2 : RequestContext := ⟨some ⟨"u2"⟩⟩
def ctxAnon : RequestContext := ⟨none⟩

/-! ### Helper lemmas -/

lemma string_length_zero_iff (s : String) : s.length = 0 ↔ s = "" := by
  constructor
  · intro h
    obtain ⟨data⟩ := s
    have hd : data = [] := by simpa [String.length] using h
    rw [hd]
  · intro h
    rw [h]
    decide

lemma string_length_lt_one_iff (s : String) : s.length < 1 ↔ s = "" := by
  rw [Nat.lt_one_iff, string_length_zero_iff]

lemma getOwnedSession_none (st : Store) (sid uid : String)
    (h : ∀ s ∈ st.sessions, ¬(s.id = sid ∧ s.userId = uid)) :
    getOwnedSession st sid uid = .error sessionNotFoundError := by
  unfold getOwnedSession
  have hnil : st.sessions.filter (fun s => s.id == sid && s.userId == uid) = [] := by
    rw [List.filter_eq_nil_iff]
    intro s hs
    simpa [-not_and, not_and_or] using h s hs
  rw [hnil]
  rfl

lemma getOwnedSession_some (st : Store) (sid uid : String) (sess : TitleSession)
    (hmem : sess ∈ st.sessions) (hid : sess.id = sid) (huid : sess.userId = uid) :
    ∃ s, getOwnedSession st sid uid = .ok s := by
  unfold getOwnedSession
  cases hh : (st.sessions.filter fun s => s.id == sid && s.userId == uid).head? with
  | none =>
    rw [List.head?_eq_none_iff] at hh
    rw [List.filter_eq_nil_iff] at hh
    exact absurd (by simp [hid, huid]) (hh sess hmem)
  | some s => exact ⟨s, rfl⟩

lemma length_filter_split {α : Type} (pm ps : α → Bool)
    (himp : ∀ a, pm a = true → ps a = true) (l : List α) :
    (l.filter fun a => ps a && !(pm a)).length + (l.filter pm).length
      = (l.filter ps).length := by
  induction l with
  | nil => rfl
  | cons a t ih =>
    simp only [List.filter_cons]
    cases hm : pm a with
    | true =>
      have hs := himp a hm
      simp [hm, hs]
      omega
    | false =>
      cases hs : ps a with
      | true =>
        simp [hm, hs]
        omega
      | false =>
        simp [hm, hs]
        omega

lemma forall₂_map_self {α β : Type} (R : α → β → Prop) (f : α → β) (l : List α)
    (h : ∀ x ∈ l, R x (f x)) : List.Forall₂ R l (l.map f) := by
  induction l with
  | nil => exact List.Forall₂.nil
  | cons a t ih =>
    exact List.Forall₂.cons (h a (by simp))
      (ih fun x hx => h x (List.mem_cons_of_mem a hx))

/-! ### Claims -/

/-- **C4.** For every `updateTitleSession` input with none of the six optional
fields present, and every `updateTitleIdea` input with none of the five mutable
fields present, the operation fails validation with the message
"At least one field must be provided to update." and the store is untouched. -/
theorem c4_update_with_zero_fields_fails_validation
    (sIn : UpdateSessionInput) (iIn : UpdateIdeaInput)
    (context : RequestContext) (now : Nat) (st : Store)
    (hsId : sIn.id ≠ "")
    (hs : sIn.contentType = none ∧ sIn.workingTitle = none ∧ sIn.topic = none ∧
      sIn.targetAudience = none ∧ sIn.language = none ∧ sIn.notes = none)
    (hiId : iIn.id ≠ "") (hiSid : iIn.sessionId ≠ "")
    (hi : iIn.titleText = none ∧ iIn.tone = none ∧ iIn.style = none ∧
      iIn.isFavorite = none ∧ iIn.isSelected = none) :
    updateTitleSession sIn context now st =
      (.error (validationError atLeastOneFieldMessage), st) ∧
    updateTitleIdea iIn context st =
      (.error (validationError atLeastOneFieldMessage), st) := by
  obtain ⟨h1, h2, h3, h4, h5, h6⟩ := hs
  obtain ⟨g1, g2, g3, g4, g5⟩ := hi
  constructor
  · simp [updateTitleSession, parseUpdateSession, string_length_zero_iff,
      hsId, h1, h2, h3, h4, h5, h6]
  · simp [updateTitleIdea, parseUpdateIdea, string_length_zero_iff,
      hiId, hiSid, g1, g2, g3, g4, g5]

/-- Witness for C4: concrete zero-field updates against `store1`. -/
theorem c4_update_with_zero_fields_fails_validation_witness :
    updateTitleSession { id := "s1" } ctxU1 42 store1 =
      (.error (validationError atLeastOneFieldMessage), store1) ∧
    updateTitleIdea { id := "i1", sessionId := "s1" } ctxU1 store1 =
      (.error (validationError atLeastOneFieldMessage), store1) :=
  c4_update_with_zero_fields_fails_validation _ _ ctxU1 42 store1
    (by decide) ⟨rfl, rfl, rfl, rfl, rfl, rfl⟩ (by decide) (by decide)
    ⟨rfl, rfl, rfl, rfl, rfl⟩

/-- **C1.** Every idea operation, called by an authenticated user on a
`sessionId` for which no session row with that id belongs to the caller
(absent entirely or owned by someone else alike), fails with `NOT_FOUND`
and the single message "Title session not found.", leaving the store
untouched (so before any idea-level read or write). -/
theorem c1_idea_ops_unowned_session_not_found
    (u : User) (context : RequestContext) (st : Store) (sid : String)
    (hctx : context.user = some u) (hsid : sid ≠ "")
    (hno : ∀ s ∈ st.sessions, ¬(s.id = sid ∧ s.userId = u.id)) :
    (∀ cIn : CreateIdeaInput, cIn.sessionId = sid → cIn.titleText ≠ "" →
      ∀ freshId now,
        createTitleIdea cIn context freshId now st = (.error sessionNotFoundError, st)) ∧
    (∀ uIn : UpdateIdeaInput, uIn.sessionId = sid → uIn.id ≠ "" →
      (uIn.titleText.isSome = true ∨ uIn.tone.isSome = true ∨
        uIn.style.isSome = true ∨ uIn.isFavorite.isSome = true ∨
        uIn.isSelected.isSome = true) →
      updateTitleIdea uIn context st = (.error sessionNotFoundError, st)) ∧
    (∀ dIn : DeleteIdeaInput, dIn.sessionId = sid → dIn.id ≠ "" →
      deleteTitleIdea dIn context st = (.error sessionNotFoundError, st)) ∧
    (∀ favoritesOnly selectedOnly : Option Bool,
      listTitleIdeas ⟨sid, favoritesOnly, selectedOnly⟩ context st =
        (.error sessionNotFoundError, st)) := by
  have hg : getOwnedSession st sid u.id = .error sessionNotFoundError :=
    getOwnedSession_none st sid u.id hno
  refine ⟨?_, ?_, ?_, ?_⟩
  · intro cIn hcs hct freshId now
    subst hcs
    simp [createTitleIdea, parseCreateIdea, string_length_zero_iff,
      hsid, hct, requireUser, hctx, hg]
  · intro uIn hus huid hone
    subst hus
    have hcond : (uIn.titleText.isSome || uIn.tone.isSome || uIn.style.isSome ||
        uIn.isFavorite.isSome || uIn.isSelected.isSome) = true := by
      rcases hone with h | h | h | h | h <;> simp [h]
    simp [updateTitleIdea, parseUpdateIdea, string_length_zero_iff,
      hsid, huid, hcond, requireUser, hctx, hg]
  · intro dIn hds hdid
    subst hds
    simp [deleteTitleIdea, parseDeleteIdea, string_length_zero_iff,
      hsid, hdid, requireUser, hctx, hg]
  · intro favoritesOnly selectedOnly
    simp [listTitleIdeas, parseListIdeas, string_length_zero_iff,
      hsid, requireUser, hctx, hg]

/-- Witness for C1: user `u2` attacks session `s1`, which exists but
belongs to `u1`. -/
theorem c1_idea_ops_unowned_session_not_found_witness :
    createTitleIdea ⟨"s1", "My Title", none, none, none, none⟩ ctxU2 "i9" 99 store1 =
      (.error sessionNotFoundError, store1) ∧
    updateTitleIdea ⟨"i1", "s1", some "X", none, none, none, none⟩ ctxU2 store1 =
      (.error sessionNotFoundError, store1) ∧
    deleteTitleIdea ⟨"i1", "s1"⟩ ctxU2 store1 = (.error sessionNotFoundError, store1) ∧
    listTitleIdeas ⟨"s1", none, none⟩ ctxU2 store1 = (.error sessionNotFoundError, store1) := by
  have h := c1_idea_ops_unowned_session_not_found ⟨"u2"⟩ ctxU2 store1 "s1"
    rfl (by decide) (by decide)
  exact ⟨h.1 _ rfl (by decide) "i9" 99, h.2.1 _ rfl (by decide) (Or.inl rfl),
    h.2.2.1 _ rfl (by decide), h.2.2.2 none none⟩

/-- **C3 counterexample.** An unauthenticated `updateTitleIdea` call whose
payload carries none of the five mutable fields fails with the zod
validation error, not with `UNAUTHORIZED`: `defineAction` runs the input
schema before the handler, so the identity check never executes. -/
theorem c3_unauthenticated_malformed_yields_validation_error :
    updateTitleIdea ⟨"i1", "s1", none, none, none, none, none⟩ ctxAnon store1 =
      (.error (validationError atLeastOneFieldMessage), store1) ∧
    validationError atLeastOneFieldMessage ≠ unauthorizedError := by
  constructor
  · rfl
  · decide

/-- **C3 (amended).** For every operation whose payload passes its input
schema, a request carrying no user identity fails `UNAUTHORIZED` before any
ownership check or store access, leaving the store untouched; schema
validation, however, precedes the identity check. -/
theorem c3_unauthenticated_wellformed_fails_unauthorized
    (context : RequestContext) (st : Store) (hctx : context.user = none) :
    (∀ input : CreateSessionInput, ∀ freshId now,
      createTitleSession input context freshId now st = (.error unauthorizedError, st)) ∧
    (∀ input : UpdateSessionInput, input.id ≠ "" →
      (input.contentType.isSome = true ∨ input.workingTitle.isSome = true ∨
        input.topic.isSome = true ∨ input.targetAudience.isSome = true ∨
        input.language.isSome = true ∨ input.notes.isSome = true) →
      ∀ now, updateTitleSession input context now st = (.error unauthorizedError, st)) ∧
    listTitleSessions context st = (.error unauthorizedError, st) ∧
    (∀ input : CreateIdeaInput, input.sessionId ≠ "" → input.titleText ≠ "" →
      ∀ freshId now,
        createTitleIdea input context freshId now st = (.error unauthorizedError, st)) ∧
    (∀ input : UpdateIdeaInput, input.id ≠ "" → input.sessionId ≠ "" →
      (input.titleText.isSome = true ∨ input.tone.isSome = true ∨
        input.style.isSome = true ∨ input.isFavorite.isSome = true ∨
        input.isSelected.isSome = true) →
      updateTitleIdea input context st = (.error unauthorizedError, st)) ∧
    (∀ input : DeleteIdeaInput, input.id ≠ "" → input.sessionId ≠ "" →
      deleteTitleIdea input context st = (.error unauthorizedError, st)) ∧
    (∀ input : ListIdeasInput, input.sessionId ≠ "" →
      listTitleIdeas input context st = (.error unauthorizedError, st)) := by
  refine ⟨?_, ?_, ?_, ?_, ?_, ?_, ?_⟩
  · intro input freshId now
    simp [createTitleSession, requireUser, hctx]
  · intro input hid hone now
    have hcond : (input.contentType.isSome || input.workingTitle.isSome ||
        input.topic.isSome || input.targetAudience.isSome ||
        input.language.isSome || input.notes.isSome) = true := by
      rcases hone with h | h | h | h | h | h <;> simp [h]
    simp [updateTitleSession, parseUpdateSession, string_length_zero_iff, hid,
      hcond, requireUser, hctx]
  · simp [listTitleSessions, requireUser, hctx]
  · intro input hsid htt freshId now
    simp [createTitleIdea, parseCreateIdea, string_length_zero_iff, hsid, htt,
      requireUser, hctx]
  · intro input hid hsid hone
    have hcond : (input.titleText.isSome || input.tone.isSome || input.style.isSome ||
        input.isFavorite.isSome || input.isSelected.isSome) = true := by
      rcases hone with h | h | h | h | h <;> simp [h]
    simp [updateTitleIdea, parseUpdateIdea, string_length_zero_iff, hid, hsid,
      hcond, requireUser, hctx]
  · intro input hid hsid
    simp [deleteTitleIdea, parseDeleteIdea, string_length_zero_iff, hid, hsid,
      requireUser, hctx]
  · intro input hsid
    simp [listTitleIdeas, parseListIdeas, string_length_zero_iff, hsid,
      requireUser, hctx]

/-- Witness for the amended C3: all seven operations, called without an
identity on well-formed payloads, fail `UNAUTHORIZED`. -/
theorem c3_unauthenticated_wellformed_fails_unauthorized_witness :
    createTitleSession ⟨none, none, none, none, none, none⟩ ctxAnon "s9" 50 store1 =
      (.error unauthorizedError, store1) ∧
    updateTitleSession ⟨"s1", some "blog", none, none, none, none, none⟩ ctxAnon 50 store1 =
      (.error unauthorizedError, store1) ∧
    listTitleSessions ctxAnon store1 = (.error unauthorizedError, store1) ∧
    createTitleIdea ⟨"s1", "T", none, none, none, none⟩ ctxAnon "i9" 50 store1 =
      (.error unauthorizedError, store1) ∧
    updateTitleIdea ⟨"i1", "s1", some "T", none, none, none, none⟩ ctxAnon store1 =
      (.error unauthorizedError, store1) ∧
    deleteTitleIdea ⟨"i1", "s1"⟩ ctxAnon store1 = (.error unauthorizedError, store1) ∧
    listTitleIdeas ⟨"s1", none, none⟩ ctxAnon store1 = (.error unauthorizedError, store1) := by
  have h := c3_unauthenticated_wellformed_fails_unauthorized ctxAnon store1 rfl
  exact ⟨h.1 ⟨none, none, none, none, none, none⟩ "s9" 50,
    h.2.1 ⟨"s1", some "blog", none, none, none, none, none⟩ (by decide) (Or.inl rfl) 50,
    h.2.2.1,
    h.2.2.2.1 ⟨"s1", "T", none, none, none, none⟩ (by decide) (by decide) "i9" 50,
    h.2.2.2.2.1 ⟨"i1", "s1", some "T", none, none, none, none⟩ (by decide) (by decide)
      (Or.inl rfl),
    h.2.2.2.2.2.1 ⟨"i1", "s1"⟩ (by decide) (by decide),
    h.2.2.2.2.2.2 ⟨"s1", none, none⟩ (by decide)⟩

/-- **C2 (code behavior at the failing input).** The `updateTitleIdea` schema
puts no `min(1)` on `titleText`, so the call that sets `titleText := ""` on
idea `i1` succeeds and persists the empty string — breaking the non-empty
invariant — while `createTitleIdea` does reject the empty `titleText` with
the `min(1)` validation error before any store write. -/
theorem c2_updateTitleIdea_writes_empty_titleText :
    updateTitleIdea ⟨"i1", "s1", some "", none, none, none, none⟩ ctxU1 store1 =
      (.ok (some { ideaA with titleText := "" }),
        ⟨[sessionA], [{ ideaA with titleText := "" }]⟩) ∧
    createTitleIdea ⟨"s1", "", none, none, none, none⟩ ctxU1 "i9" 50 store1 =
      (.error (validationError minLengthMessage), store1) := by
  constructor
  · rfl
  · rfl

/-- **C5.** On every successful `updateTitleSession`, the ideas table is
untouched and the sessions table changes pointwise: a session whose id
differs from the input id is unchanged; the session with the input id keeps
`id`, `userId` and `createdAt`, gets `updatedAt := now` unconditionally,
takes the supplied value of each optional field present in the input, and
retains the prior value of every field not supplied. -/
theorem c5_updateTitleSession_frame
    (input : UpdateSessionInput) (context : RequestContext) (now : Nat)
    (st st' : Store) (out : Option TitleSession)
    (h : updateTitleSession input context now st = (.ok out, st')) :
    st'.ideas = st.ideas ∧
    List.Forall₂ (fun s s' : TitleSession =>
      (s.id ≠ input.id → s' = s) ∧
      (s.id = input.id →
        s'.id = s.id ∧ s'.userId = s.userId ∧ s'.createdAt = s.createdAt ∧
        s'.updatedAt = now ∧
        (input.contentType = none → s'.contentType = s.contentType) ∧
        (∀ v, input.contentType = some v → s'.contentType = some v) ∧
        (input.workingTitle = none → s'.workingTitle = s.workingTitle) ∧
        (∀ v, input.workingTitle = some v → s'.workingTitle = some v) ∧
        (input.topic = none → s'.topic = s.topic) ∧
        (∀ v, input.topic = some v → s'.topic = some v) ∧
        (input.targetAudience = none → s'.targetAudience = s.targetAudience) ∧
        (∀ v, input.targetAudience = some v → s'.targetAudience = some v) ∧
        (input.language = none → s'.language = s.language) ∧
        (∀ v, input.language = some v → s'.language = some v) ∧
        (input.notes = none → s'.notes = s.notes) ∧
        (∀ v, input.notes = some v → s'.notes = some v)))
      st.sessions st'.sessions := by
  unfold updateTitleSession at h
  split at h
  · simp at h
  split at h
  · simp at h
  split at h
  · simp at h
  simp only [Prod.mk.injEq] at h
  obtain ⟨-, hst⟩ := h
  subst hst
  refine ⟨rfl, ?_⟩
  apply forall₂_map_self
  intro s _
  constructor
  · intro hne
    rw [if_neg]
    simp [hne]
  · intro heq
    rw [if_pos (by simp [heq])]
    refine ⟨rfl, rfl, rfl, rfl, ?_, ?_, ?_, ?_, ?_, ?_, ?_, ?_, ?_, ?_, ?_, ?_⟩ <;>
      first
      | (intro hnone; simp [applySessionSet, hnone])
      | (intro v hv; simp [applySessionSet, hv])

/-- Witness for C5: updating only `contentType` of `s1` leaves the idea
table and every untouched field alone while refreshing `updatedAt`. -/
theorem c5_updateTitleSession_frame_witness :
    (⟨[{ sessionA with contentType := some "blog", updatedAt := 42 }], [ideaA]⟩ : Store).ideas
      = store1.ideas ∧
    List.Forall₂ (fun s s' : TitleSession =>
      (s.id ≠ "s1" → s' = s) ∧
      (s.id = "s1" →
        s'.id = s.id ∧ s'.userId = s.userId ∧ s'.createdAt = s.createdAt ∧
        s'.updatedAt = 42 ∧
        ((some "blog" : Option String) = none → s'.contentType = s.contentType) ∧
        (∀ v, (some "blog" : Option String) = some v → s'.contentType = some v) ∧
        ((none : Option String) = none → s'.workingTitle = s.workingTitle) ∧
        (∀ v, (none : Option String) = some v → s'.workingTitle = some v) ∧
        ((none : Option String) = none → s'.topic = s.topic) ∧
        (∀ v, (none : Option String) = some v → s'.topic = some v) ∧
        ((none : Option String) = none → s'.targetAudience = s.targetAudience) ∧
        (∀ v, (none : Option String) = some v → s'.targetAudience = some v) ∧
        ((none : Option String) = none → s'.language = s.language) ∧
        (∀ v, (none : Option String) = some v → s'.language = some v) ∧
        ((none : Option String) = none → s'.notes = s.notes) ∧
        (∀ v, (none : Option String) = some v → s'.notes = some v)))
      store1.sessions
      [{ sessionA with contentType := some "blog", updatedAt := 42 }] :=
  c5_updateTitleSession_frame
    ⟨"s1", some "blog", none, none, none, none, none⟩ ctxU1 42 store1
    ⟨[{ sessionA with contentType := some "blog", updatedAt := 42 }], [ideaA]⟩
    (some { sessionA with contentType := some "blog", updatedAt := 42 })
    rfl

/-- **C6.** On every successful `updateTitleIdea`, the sessions table is
untouched and the ideas table changes pointwise: an idea whose id differs
from the input id is unchanged; the idea with the input id keeps `id`,
`sessionId` and `createdAt` (no timestamp is refreshed — ideas carry no
`updatedAt` at all), takes the supplied value of each mutable field present
in the input, and retains the prior value of every field not supplied. -/
theorem c6_updateTitleIdea_frame
    (input : UpdateIdeaInput) (context : RequestContext)
    (st st' : Store) (out : Option TitleIdea)
    (h : updateTitleIdea input context st = (.ok out, st')) :
    st'.sessions = st.sessions ∧
    List.Forall₂ (fun i i' : TitleIdea =>
      (i.id ≠ input.id → i' = i) ∧
      (i.id = input.id →
        i'.id = i.id ∧ i'.sessionId = i.sessionId ∧ i'.createdAt = i.createdAt ∧
        (input.titleText = none → i'.titleText = i.titleText) ∧
        (∀ v, input.titleText = some v → i'.titleText = v) ∧
        (input.tone = none → i'.tone = i.tone) ∧
        (∀ v, input.tone = some v → i'.tone = some v) ∧
        (input.style = none → i'.style = i.style) ∧
        (∀ v, input.style = some v → i'.style = some v) ∧
        (input.isFavorite = none → i'.isFavorite = i.isFavorite) ∧
        (∀ b, input.isFavorite = some b → i'.isFavorite = b) ∧
        (input.isSelected = none → i'.isSelected = i.isSelected) ∧
        (∀ b, input.isSelected = some b → i'.isSelected = b)))
      st.ideas st'.ideas := by
  unfold updateTitleIdea at h
  split at h
  · simp at h
  split at h
  · simp at h
  split at h
  · simp at h
  split at h
  · simp at h
  simp only [Prod.mk.injEq] at h
  obtain ⟨-, hst⟩ := h
  subst hst
  refine ⟨rfl, ?_⟩
  apply forall₂_map_self
  intro i _
  constructor
  · intro hne
    rw [if_neg]
    simp [hne]
  · intro heq
    rw [if_pos (by simp [heq])]
    refine ⟨rfl, rfl, rfl, ?_, ?_, ?_, ?_, ?_, ?_, ?_, ?_, ?_, ?_⟩ <;>
      first
      | (intro hnone; simp [applyIdeaSet, hnone])
      | (intro v hv; simp [applyIdeaSet, hv])

/-- Witness for C6: setting only `isFavorite` on idea `i1` leaves the
session table and all other idea fields alone. -/
theorem c6_updateTitleIdea_frame_witness :
    (⟨[sessionA], [{ ideaA with isFavorite := true }]⟩ : Store).sessions
      = store1.sessions ∧
    List.Forall₂ (fun i i' : TitleIdea =>
      (i.id ≠ "i1" → i' = i) ∧
      (i.id = "i1" →
        i'.id = i.id ∧ i'.sessionId = i.sessionId ∧ i'.createdAt = i.createdAt ∧
        ((none : Option String) = none → i'.titleText = i.titleText) ∧
        (∀ v, (none : Option String) = some v → i'.titleText = v) ∧
        ((none : Option String) = none → i'.tone = i.tone) ∧
        (∀ v, (none : Option String) = some v → i'.tone = some v) ∧
        ((none : Option String) = none → i'.style = i.style) ∧
        (∀ v, (none : Option String) = some v → i'.style = some v) ∧
        ((some true : Option Bool) = none → i'.isFavorite = i.isFavorite) ∧
        (∀ b, (some true : Option Bool) = some b → i'.isFavorite = b) ∧
        ((none : Option Bool) = none → i'.isSelected = i.isSelected) ∧
        (∀ b, (none : Option Bool) = some b → i'.isSelected = b)))
      store1.ideas [{ ideaA with isFavorite := true }] :=
  c6_updateTitleIdea_frame
    ⟨"i1", "s1", none, none, none, some true, none⟩ ctxU1 store1
    ⟨[sessionA], [{ ideaA with isFavorite := true }]⟩
    (some { ideaA with isFavorite := true })
    rfl

/-- **C7.** For a caller owning the referenced session, `listTitleIdeas`
succeeds without touching the store, its `total` is the number of returned
items, and an idea is returned iff it is in the store with the requested
`sessionId`, is a favorite whenever `favoritesOnly` resolves to true, and is
selected whenever `selectedOnly` resolves to true — each true flag adds a
conjunctive predicate, a false or omitted flag adds none. -/
theorem c7_listTitleIdeas_conjunction
    (input : ListIdeasInput) (context : RequestContext) (u : User)
    (st : Store) (sess : TitleSession)
    (hctx : context.user = some u) (hsid : input.sessionId ≠ "")
    (hmem : sess ∈ st.sessions) (hsess : sess.id = input.sessionId)
    (hown : sess.userId = u.id) :
    ∃ out, listTitleIdeas input context st = (.ok out, st) ∧
      out.total = out.items.length ∧
      ∀ i : TitleIdea, i ∈ out.items ↔
        (i ∈ st.ideas ∧ i.sessionId = input.sessionId ∧
          (input.favoritesOnly.getD false = true → i.isFavorite = true) ∧
          (input.selectedOnly.getD false = true → i.isSelected = true)) := by
  obtain ⟨s0, hg⟩ := getOwnedSession_some st input.sessionId u.id sess hmem hsess hown
  have hcond : ¬ input.sessionId.length < 1 := by
    rw [string_length_lt_one_iff]
    exact hsid
  unfold listTitleIdeas parseListIdeas
  rw [if_neg hcond]
  simp only [requireUser, hctx, hg]
  refine ⟨_, rfl, rfl, ?_⟩
  intro i
  rw [List.mem_filter]
  cases hfav : input.favoritesOnly.getD false <;>
    cases hsel : input.selectedOnly.getD false <;>
      simp [hfav, hsel]

/-- Witness for C7: with both flags true on a four-idea session, exactly
the idea with both `isFavorite` and `isSelected` is returned. -/
theorem c7_listTitleIdeas_conjunction_witness :
    ∃ out, listTitleIdeas ⟨"s1", some true, some true⟩ ctxU1 store2 = (.ok out, store2) ∧
      out.total = out.items.length ∧
      ∀ i : TitleIdea, i ∈ out.items ↔
        (i ∈ store2.ideas ∧ i.sessionId = "s1" ∧
          ((some true : Option Bool).getD false = true → i.isFavorite = true) ∧
          ((some true : Option Bool).getD false = true → i.isSelected = true)) :=
  c7_listTitleIdeas_conjunction ⟨"s1", some true, some true⟩ ctxU1 ⟨"u1"⟩ store2
    sessionA rfl (by decide) (by decide) rfl rfl

/-- **C8.** For a caller owning the referenced session, `deleteTitleIdea`
fails `NOT_FOUND` exactly when no idea matches both the given id and
sessionId — and then the store is unchanged; when a matching idea exists the
call succeeds, the sessions table is untouched, no matching idea remains in
the store, and (when exactly one row matched, as the primary key guarantees)
a subsequent `listTitleIdeas` for that session returns a total exactly one
less than before. -/
theorem c8_deleteTitleIdea_correct
    (input : DeleteIdeaInput) (context : RequestContext) (u : User)
    (st : Store) (sess : TitleSession)
    (hctx : context.user = some u) (hid : input.id ≠ "") (hsid : input.sessionId ≠ "")
    (hmem : sess ∈ st.sessions) (hsess : sess.id = input.sessionId)
    (hown : sess.userId = u.id) :
    ((∀ i ∈ st.ideas, ¬(i.id = input.id ∧ i.sessionId = input.sessionId)) →
      deleteTitleIdea input context st = (.error ideaNotFoundError, st)) ∧
    ((∃ i ∈ st.ideas, i.id = input.id ∧ i.sessionId = input.sessionId) →
      ∃ st', deleteTitleIdea input context st = (.ok true, st') ∧
        st'.sessions = st.sessions ∧
        (∀ i ∈ st'.ideas, ¬(i.id = input.id ∧ i.sessionId = input.sessionId)) ∧
        ((st.ideas.filter fun i =>
            i.id == input.id && i.sessionId == input.sessionId).length = 1 →
          ∀ outB outA : IdeaListOutput,
            listTitleIdeas ⟨input.sessionId, none, none⟩ context st = (.ok outB, st) →
            listTitleIdeas ⟨input.sessionId, none, none⟩ context st' = (.ok outA, st') →
            outA.total + 1 = outB.total)) := by
  obtain ⟨s0, hg⟩ := getOwnedSession_some st input.sessionId u.id sess hmem hsess hown
  have hidc : ¬ input.id.length < 1 := by
    rw [string_length_lt_one_iff]
    exact hid
  have hsidc : ¬ input.sessionId.length < 1 := by
    rw [string_length_lt_one_iff]
    exact hsid
  have hrun : deleteTitleIdea input context st =
      (if ((st.ideas.filter fun i =>
          i.id == input.id && i.sessionId == input.sessionId).length == 0) = true
        then (.error ideaNotFoundError,
          ⟨st.sessions, st.ideas.filter fun i =>
            !(i.id == input.id && i.sessionId == input.sessionId)⟩)
        else (.ok true,
          ⟨st.sessions, st.ideas.filter fun i =>
            !(i.id == input.id && i.sessionId == input.sessionId)⟩)) := by
    unfold deleteTitleIdea parseDeleteIdea
    rw [if_neg hidc, if_neg hsidc]
    simp only [requireUser, hctx, hg]
  constructor
  · intro hno
    have hnil : st.ideas.filter (fun i =>
        i.id == input.id && i.sessionId == input.sessionId) = [] := by
      rw [List.filter_eq_nil_iff]
      intro i hi
      simpa using hno i hi
    have hall : st.ideas.filter (fun i =>
        !(i.id == input.id && i.sessionId == input.sessionId)) = st.ideas := by
      rw [List.filter_eq_self]
      intro i hi
      have h := hno i hi
      by_cases h1 : i.id = input.id
      · by_cases h2 : i.sessionId = input.sessionId
        · exact absurd ⟨h1, h2⟩ h
        · simp [h2]
      · simp [h1]
    rw [hrun, hnil, hall]
    rfl
  · rintro ⟨j, hjmem, hjid, hjsid⟩
    have hlen0 : (st.ideas.filter fun i =>
        i.id == input.id && i.sessionId == input.sessionId).length ≠ 0 := by
      intro h0
      rw [List.length_eq_zero, List.filter_eq_nil_iff] at h0
      exact h0 j hjmem (by simp [hjid, hjsid])
    rw [if_neg (by simpa using hlen0)] at hrun
    refine ⟨_, hrun, rfl, ?_, ?_⟩
    · intro i hi
      rw [List.mem_filter] at hi
      intro hc
      have hq := hi.2
      simp [hc.1, hc.2] at hq
    · intro hone outB outA hB hA
      have hXB : listTitleIdeas ⟨input.sessionId, none, none⟩ context st =
          (.ok ⟨st.ideas.filter fun i => i.sessionId == input.sessionId,
            (st.ideas.filter fun i => i.sessionId == input.sessionId).length⟩, st) := by
        unfold listTitleIdeas parseListIdeas
        rw [if_neg hsidc]
        simp only [requireUser, hctx, hg]
        simp
      have hg2 : getOwnedSession
          ⟨st.sessions, st.ideas.filter fun i =>
            !(i.id == input.id && i.sessionId == input.sessionId)⟩
          input.sessionId u.id = .ok s0 := hg
      have hXA : listTitleIdeas ⟨input.sessionId, none, none⟩ context
          ⟨st.sessions, st.ideas.filter fun i =>
            !(i.id == input.id && i.sessionId == input.sessionId)⟩ =
          (.ok ⟨(st.ideas.filter fun i =>
              !(i.id == input.id && i.sessionId == input.sessionId)).filter
                (fun i => i.sessionId == input.sessionId),
            ((st.ideas.filter fun i =>
              !(i.id == input.id && i.sessionId == input.sessionId)).filter
                (fun i => i.sessionId == input.sessionId)).length⟩,
            ⟨st.sessions, st.ideas.filter fun i =>
              !(i.id == input.id && i.sessionId == input.sessionId)⟩) := by
        unfold listTitleIdeas parseListIdeas
        rw [if_neg hsidc]
        simp only [requireUser, hctx, hg2]
        simp
      rw [hXB] at hB
      rw [hXA] at hA
      simp only [Prod.mk.injEq, Except.ok.injEq] at hB hA
      obtain ⟨hBo, -⟩ := hB
      obtain ⟨hAo, -⟩ := hA
      rw [← hBo, ← hAo]
      simp only [List.filter_filter]
      have hsplit := length_filter_split
        (fun i => i.id == input.id && i.sessionId == input.sessionId)
        (fun i => i.sessionId == input.sessionId)
        (fun a ha => ((Bool.and_eq_true _ _).mp ha).2) st.ideas
      rw [hone] at hsplit
      simpa using hsplit

/-- Witness for C8: deleting `i1` from `store1` (one matching row) succeeds
and the list total drops from 1 to 0; the subsequent conclusions are
discharged at that concrete input. -/
theorem c8_deleteTitleIdea_correct_witness :
    ∃ st', deleteTitleIdea ⟨"i1", "s1"⟩ ctxU1 store1 = (.ok true, st') ∧
      st'.sessions = store1.sessions ∧
      (∀ i ∈ st'.ideas, ¬(i.id = "i1" ∧ i.sessionId = "s1")) ∧
      ((store1.ideas.filter fun i => i.id == "i1" && i.sessionId == "s1").length = 1 →
        ∀ outB outA : IdeaListOutput,
          listTitleIdeas ⟨"s1", none, none⟩ ctxU1 store1 = (.ok outB, store1) →
          listTitleIdeas ⟨"s1", none, none⟩ ctxU1 st' = (.ok outA, st') →
          outA.total + 1 = outB.total) :=
  (c8_deleteTitleIdea_correct ⟨"i1", "s1"⟩ ctxU1 ⟨"u1"⟩ store1 sessionA
    rfl (by decide) (by decide) (by decide) rfl rfl).2
    ⟨ideaA, by decide, rfl, rfl⟩

/-- **C9.** Every successful `createTitleIdea` returns an idea whose id is
the freshly generated one, whose `sessionId` and (necessarily non-empty)
`titleText` are the supplied values, whose `tone`/`style` pass through, whose
flags take the supplied booleans or default to `false`, and whose `createdAt`
is the current time; the persisted row is exactly the returned record
(appended to the ideas table) and the sessions table is untouched. -/
theorem c9_createTitleIdea_creates
    (input : CreateIdeaInput) (context : RequestContext) (freshId : String)
    (now : Nat) (st st' : Store) (idea : TitleIdea)
    (h : createTitleIdea input context freshId now st = (.ok idea, st')) :
    idea.id = freshId ∧ idea.sessionId = input.sessionId ∧
    idea.titleText = input.titleText ∧ idea.titleText ≠ "" ∧
    idea.tone = input.tone ∧ idea.style = input.style ∧
    idea.isFavorite = input.isFavorite.getD false ∧
    idea.isSelected = input.isSelected.getD false ∧
    idea.createdAt = now ∧
    st'.ideas = st.ideas ++ [idea] ∧ st'.sessions = st.sessions := by
  unfold createTitleIdea at h
  split at h
  · simp at h
  next pin heq =>
  split at h
  · simp at h
  split at h
  · simp at h
  simp only [Prod.mk.injEq, Except.ok.injEq] at h
  obtain ⟨hidea, hst⟩ := h
  subst hst
  subst hidea
  unfold parseCreateIdea at heq
  split at heq
  · exact absurd heq (by simp)
  split at heq
  next hc2 => exact absurd heq (by simp)
  next hc2 =>
  refine ⟨rfl, rfl, rfl, ?_, rfl, rfl, rfl, rfl, rfl, rfl, rfl⟩
  intro he
  rw [string_length_lt_one_iff] at hc2
  exact hc2 he

/-- Witness for C9: creating an idea with a supplied tone and
`isFavorite := true` on `store1`. -/
theorem c9_createTitleIdea_creates_witness :
    (⟨"i7", "s1", "New Title", some "catchy", none, true, false, 77⟩ : TitleIdea).id
        = "i7" ∧
    (⟨"i7", "s1", "New Title", some "catchy", none, true, false, 77⟩ : TitleIdea).sessionId
        = "s1" ∧
    (⟨"i7", "s1", "New Title", some "catchy", none, true, false, 77⟩ : TitleIdea).titleText
        = "New Title" ∧
    (⟨"i7", "s1", "New Title", some "catchy", none, true, false, 77⟩ : TitleIdea).titleText
        ≠ "" ∧
    (⟨"i7", "s1", "New Title", some "catchy", none, true, false, 77⟩ : TitleIdea).tone
        = some "catchy" ∧
    (⟨"i7", "s1", "New Title", some "catchy", none, true, false, 77⟩ : TitleIdea).style
        = none ∧
    (⟨"i7", "s1", "New Title", some "catchy", none, true, false, 77⟩ : TitleIdea).isFavorite
        = (some true : Option Bool).getD false ∧
    (⟨"i7", "s1", "New Title", some "catchy", none, true, false, 77⟩ : TitleIdea).isSelected
        = (none : Option Bool).getD false ∧
    (⟨"i7", "s1", "New Title", some "catchy", none, true, false, 77⟩ : TitleIdea).createdAt
        = 77 ∧
    (⟨[sessionA], [ideaA, ⟨"i7", "s1", "New Title", some "catchy", none, true, false, 77⟩]⟩
        : Store).ideas
      = store1.ideas ++ [⟨"i7", "s1", "New Title", some "catchy", none, true, false, 77⟩] ∧
    (⟨[sessionA], [ideaA, ⟨"i7", "s1", "New Title", some "catchy", none, true, false, 77⟩]⟩
        : Store).sessions
      = store1.sessions :=
  c9_createTitleIdea_creates
    ⟨"s1", "New Title", some "catchy", none, some true, none⟩ ctxU1 "i7" 77 store1
    ⟨[sessionA], [ideaA, ⟨"i7", "s1", "New Title", some "catchy", none, true, false, 77⟩]⟩
    ⟨"i7", "s1", "New Title", some "catchy", none, true, false, 77⟩
    rfl

/-- **C10.** Every operation is atomic on error: whenever one of the seven
operations returns an error — `UNAUTHORIZED`, a validation error, or
`NOT_FOUND` — the store it returns is exactly the store before the call; in
particular `deleteTitleIdea`'s zero-row `NOT_FOUND` follows a delete that
removed nothing. -/
theorem c10_error_atomicity :
    (∀ (input : CreateSessionInput) context freshId now (st : Store) e st',
      createTitleSession input context freshId now st = (.error e, st') → st' = st) ∧
    (∀ (input : UpdateSessionInput) context now (st : Store) e st',
      updateTitleSession input context now st = (.error e, st') → st' = st) ∧
    (∀ context (st : Store) e st',
      listTitleSessions context st = (.error e, st') → st' = st) ∧
    (∀ (input : CreateIdeaInput) context freshId now (st : Store) e st',
      createTitleIdea input context freshId now st = (.error e, st') → st' = st) ∧
    (∀ (input : UpdateIdeaInput) context (st : Store) e st',
      updateTitleIdea input context st = (.error e, st') → st' = st) ∧
    (∀ (input : DeleteIdeaInput) context (st : Store) e st',
      deleteTitleIdea input context st = (.error e, st') → st' = st) ∧
    (∀ (input : ListIdeasInput) context (st : Store) e st',
      listTitleIdeas input context st = (.error e, st') → st' = st) := by
  refine ⟨?_, ?_, ?_, ?_, ?_, ?_, ?_⟩
  · intro input context freshId now st e st' h
    unfold createTitleSession at h
    split at h
    · injection h with h1 h2
      exact h2.symm
    · simp at h
  · intro input context now st e st' h
    unfold updateTitleSession at h
    split at h
    · injection h with h1 h2
      exact h2.symm
    split at h
    · injection h with h1 h2
      exact h2.symm
    split at h
    · injection h with h1 h2
      exact h2.symm
    · simp at h
  · intro context st e st' h
    unfold listTitleSessions at h
    split at h
    · injection h with h1 h2
      exact h2.symm
    · simp at h
  · intro input context freshId now st e st' h
    unfold createTitleIdea at h
    split at h
    · injection h with h1 h2
      exact h2.symm
    split at h
    · injection h with h1 h2
      exact h2.symm
    split at h
    · injection h with h1 h2
      exact h2.symm
    · simp at h
  · intro input context st e st' h
    unfold updateTitleIdea at h
    split at h
    · injection h with h1 h2
      exact h2.symm
    split at h
    · injection h with h1 h2
      exact h2.symm
    split at h
    · injection h with h1 h2
      exact h2.symm
    split at h
    · injection h with h1 h2
      exact h2.symm
    · simp at h
  · intro input context st e st' h
    unfold deleteTitleIdea at h
    simp only [] at h
    split at h
    · injection h with h1 h2
      exact h2.symm
    split at h
    · injection h with h1 h2
      exact h2.symm
    split at h
    · injection h with h1 h2
      exact h2.symm
    split at h
    next hc =>
      have hnil : st.ideas.filter (fun i =>
          i.id == input.id && i.sessionId == input.sessionId) = [] := by
        rw [← List.length_eq_zero]
        simpa using hc
      have hall : st.ideas.filter (fun i =>
          !(i.id == input.id && i.sessionId == input.sessionId)) = st.ideas := by
        rw [List.filter_eq_self]
        intro i hi
        have hin := List.filter_eq_nil_iff.mp hnil i hi
        by_cases h1 : i.id = input.id
        · by_cases h2 : i.sessionId = input.sessionId
          · exact absurd (by simp [h1, h2]) hin
          · simp [h2]
        · simp [h1]
      injection h with h1 h2
      rw [← h2, hall]
    next hc => simp at h
  · intro input context st e st' h
    unfold listTitleIdeas at h
    split at h
    · injection h with h1 h2
      exact h2.symm
    split at h
    · injection h with h1 h2
      exact h2.symm
    split at h
    · injection h with h1 h2
      exact h2.symm
    · simp at h

/-- Witness for C10: deleting a non-existent idea id from `store1` raises
`NOT_FOUND` after a zero-row delete, and the store is returned unchanged. -/
theorem c10_error_atomicity_witness :
    deleteTitleIdea ⟨"i9", "s1"⟩ ctxU1 store1 = (.error ideaNotFoundError, store1) ∧
    store1 = store1 :=
  ⟨rfl, c10_error_atomicity.2.2.2.2.2.1 ⟨"i9", "s1"⟩ ctxU1 store1
    ideaNotFoundError store1 rfl⟩

end CreativeTitleMaker
